import Mathlib

/-!
Verification of the geolocation matching engine of the 日志周报 (weekly-report)
system, `src/ip_location.py`.  The Python functions are shallowly embedded:
strings become `String` (lists of characters), Python `None`-able floats become
`Option ℝ`, dictionaries used as caches become association lists in insertion
order, and network responses become explicit `Option`-typed inputs so that the
fallback chains are ordinary functions of their (possibly failing) provider
answers.
-/

namespace RZB

/-! ## Python string primitives -/

/-- Occurrence test for Python `sub in s`, on character lists:
true iff `p` occurs contiguously inside `s` (the empty pattern occurs
everywhere, as in Python). -/
def subList (p : List Char) : List Char → Bool
  | [] => p.isEmpty
  | c :: rest => p.isPrefixOf (c :: rest) || subList p rest

/-- One pass of Python `s.replace(p, '')`: scan left to right, removing each
non-overlapping occurrence of `p` and continuing after it.  The fuel argument
(instantiated with the length of the scanned list, which bounds the number of
steps) only makes the recursion structural; it is never exhausted. -/
def replGo (p : List Char) : Nat → List Char → List Char
  | _, [] => []
  | 0, s => s
  | Nat.succ fuel, c :: rest =>
    if p ≠ [] ∧ p.isPrefixOf (c :: rest) then replGo p fuel ((c :: rest).drop p.length)
    else c :: replGo p fuel rest

/-- Python `s.replace(p, '')` on character lists. -/
def replAll (p s : List Char) : List Char := replGo p s.length s

/-- Python `s.replace(pat, '')`. -/
def pyReplace (s pat : String) : String := String.mk (replAll pat.data s.data)

/-- Python `s.lower()` (ASCII case folding; CJK characters are unaffected,
matching the inputs this system handles). -/
def pyLower (s : String) : String := String.mk (s.data.map Char.toLower)

/-- Python `s.strip()`: remove leading and trailing whitespace. -/
def pyStrip (s : String) : String :=
  String.mk (((s.data.dropWhile Char.isWhitespace).reverse.dropWhile Char.isWhitespace).reverse)

/-- Python `sub in s` on strings. -/
def pyIn (sub s : String) : Bool := subList sub.data s.data

/-- City-name normalization (`ip_location.py` lines 496/587/658): strip the
administrative suffixes 市/县/区/自治州/地区/盟, applied in this exact
sequential order as chained `str.replace` calls. -/
def normCity (s : String) : String :=
  pyReplace (pyReplace (pyReplace (pyReplace (pyReplace (pyReplace s "市") "县") "区") "自治州") "地区") "盟"

/-- Province-name normalization (`ip_location.py` lines 497/588): strip
省/市/自治区/特别行政区/维吾尔/回族/壮族, in this order. -/
def normRegion (s : String) : String :=
  pyReplace (pyReplace (pyReplace (pyReplace (pyReplace (pyReplace (pyReplace s "省") "市") "自治区") "特别行政区") "维吾尔") "回族") "壮族"

example : normCity (pyLower "北京市") = "北京" := by decide
example : normCity "北京" = "北京" := by decide
example : pyIn "hai" "shanghai" = true := by decide
example : pyIn "china" (pyLower "United States") = false := by decide
example : pyStrip " ab c " = "ab c" := by decide
example : normRegion "新疆维吾尔自治区" = "新疆" := by decide

/-! ## Data model

A location dictionary (`location_info` / `hospital_location` in the source):
string fields default to the empty string (Python `dict.get(k, '')`), the
coordinates are `Option ℝ` (`dict.get('latitude')` is `None` when absent). -/

structure Loc where
  city : String := ""
  region : String := ""
  country : String := ""
  country_code : String := ""
  ip : String := ""
  district : String := ""
  formatted_address : String := ""
  adcode : String := ""
  rectangle : String := ""
  timezone : String := ""
  isp : String := ""
  latitude : Option ℝ := none
  longitude : Option ℝ := none
  success : Bool := false

/-- A candidate project row as consumed by `match_projects_by_location`:
`id`, `name`, `hospital_name`, `region` (missing values become `""`). -/
structure Project where
  id : Nat := 0
  name : String := ""
  hospital_name : String := ""
  region : String := ""

/-! ## Haversine distance (`calculate_distance`, lines 400-429) -/

/-- Python truthiness of an optional float: `None` and `0.0` are falsy. -/
def truthy (o : Option ℝ) : Prop := o.getD 0 ≠ 0

/-- `math.radians`. -/
noncomputable def radians (x : ℝ) : ℝ := x * Real.pi / 180

/-- The haversine great-circle distance in kilometers, Earth radius 6371 km,
exactly as computed at lines 416-429. -/
noncomputable def haversine (lat1 lon1 lat2 lon2 : ℝ) : ℝ :=
  let lat1_rad := radians lat1
  let lat2_rad := radians lat2
  let delta_lat := radians (lat2 - lat1)
  let delta_lon := radians (lon2 - lon1)
  let a := Real.sin (delta_lat / 2) ^ 2 +
    Real.cos lat1_rad * Real.cos lat2_rad * Real.sin (delta_lon / 2) ^ 2
  let c := 2 * Real.arcsin (Real.sqrt a)
  6371.0 * c

open Classical in
/-- `calculate_distance` (lines 400-429): `None` unless all four arguments
are truthy (non-`None` and non-zero, the guard `not all([...])` at line 412),
otherwise the haversine distance. -/
noncomputable def calculate_distance (lat1 lon1 lat2 lon2 : Option ℝ) : Option ℝ :=
  if truthy lat1 ∧ truthy lon1 ∧ truthy lat2 ∧ truthy lon2 then
    some (haversine (lat1.getD 0) (lon1.getD 0) (lat2.getD 0) (lon2.getD 0))
  else none

/-! ## Match scoring (`match_projects_by_location`, lines 431-715) -/

/-- Distance-tier points (lines 640-651). -/
noncomputable def distTier (d : ℝ) : Nat :=
  if d ≤ 10 then 30
  else if d ≤ 50 then 20
  else if d ≤ 100 then 10
  else if d ≤ 200 then 5
  else 0

/-- City tier (lines 590-608), on the lowercased city strings: an
`if`/`elif` cascade, so the first matching clause wins and nothing stacks. -/
def cityTier (ipCityLower hospCityLower : String) : Nat :=
  let ipN := normCity ipCityLower
  let hN := normCity hospCityLower
  if ipCityLower ≠ "" ∧ hospCityLower ≠ "" then
    if ipCityLower = hospCityLower then 50
    else if ipN ≠ "" ∧ hN ≠ "" ∧ ipN = hN then 45
    else if pyIn ipCityLower hospCityLower ∨ pyIn hospCityLower ipCityLower then 40
    else if ipN ≠ "" ∧ hN ≠ "" ∧ (pyIn ipN hN ∨ pyIn hN ipN) then 35
    else 0
  else 0

/-- Region (province) tier (lines 610-628), same cascade with lower weights. -/
def regionTier (ipRegionLower hospRegionLower : String) : Nat :=
  let ipN := normRegion ipRegionLower
  let hN := normRegion hospRegionLower
  if ipRegionLower ≠ "" ∧ hospRegionLower ≠ "" then
    if ipRegionLower = hospRegionLower then 30
    else if ipN ≠ "" ∧ hN ≠ "" ∧ ipN = hN then 25
    else if pyIn ipRegionLower hospRegionLower ∨ pyIn hospRegionLower ipRegionLower then 20
    else if ipN ≠ "" ∧ hN ≠ "" ∧ (pyIn ipN hN ∨ pyIn hN ipN) then 15
    else 0
  else 0

/-- Text-hint fallback scoring (lines 653-683), used when the venue geocode
failed: the client city against the raw `region` hint of the project, plus the
weaker substring checks against the concatenated project and hospital names. -/
def textTier (ipCityLower ipRegionLower projectRegion projectName hospitalName : String) : Nat :=
  let ipCityN := normCity ipCityLower
  let ipRegionN := normRegion ipRegionLower
  let prL := pyLower projectRegion
  let prN := normCity prL
  let part1 :=
    if ipCityLower ≠ "" ∧ prL ≠ "" then
      if ipCityLower = prL then 30
      else if pyIn ipCityLower prL ∨ pyIn prL ipCityLower then 25
      else if ipCityN ≠ "" ∧ prN ≠ "" then
        if ipCityN = prN then 28
        else if pyIn ipCityN prN ∨ pyIn prN ipCityN then 22
        else 0
      else 0
    else 0
  let searchText := pyLower (projectName ++ " " ++ hospitalName)
  let part2 := if ipCityN ≠ "" ∧ 2 ≤ ipCityN.length ∧ pyIn ipCityN searchText then 15 else 0
  let part3 := if ipRegionN ≠ "" ∧ 2 ≤ ipRegionN.length ∧ pyIn ipRegionN searchText then 10 else 0
  part1 + part2 + part3

/-- The client city, stripped and lowercased (lines 480, 491). -/
def ipCityLower (loc : Loc) : String := pyLower (pyStrip loc.city)

/-- The client region, stripped and lowercased (lines 481, 492). -/
def ipRegionLower (loc : Loc) : String := pyLower (pyStrip loc.region)

/-- The client country, stripped and lowercased (lines 482, 493). -/
def ipCountryLower (loc : Loc) : String := pyLower (pyStrip loc.country)

/-- VPN detection (line 500): the lowercased country is non-empty and contains
neither `"china"` nor `"中国"`. -/
def is_vpn (loc : Loc) : Bool :=
  (ipCountryLower loc != "") && !(pyIn "china" (ipCountryLower loc)) &&
    !(pyIn "中国" (ipCountryLower loc))

/-- The VPN penalty (line 688), `int(score * 0.7)`, taken with exact
arithmetic: multiply by 0.7 and truncate.  (The Python float evaluation agrees
with this on every reachable score except 90, where `90 * 0.7` rounds to
`62.99999999999999` and `int` yields 62 instead of 63; see the C2 analysis.) -/
def vpnAdjust (vpn : Bool) (s : Nat) : Nat := if vpn then 7 * s / 10 else s

/-- Text fallback branch of the per-project scoring (lines 653-683). -/
def textFallbackScore (loc : Loc) (p : Project) : Nat :=
  textTier (ipCityLower loc) (ipRegionLower loc) (pyStrip p.region) (pyStrip p.name)
    (pyStrip p.hospital_name)

open Classical in
/-- Pre-VPN score and optional distance of one project (lines 573-683):
geocoded branch when the venue location is present and `success`, otherwise
the text fallback (with `distance_km` left `None`). -/
noncomputable def rawScore (loc : Loc) (p : Project) (hl : Option Loc) : Nat × Option ℝ :=
  match hl with
  | some h =>
    if h.success then
      let hCityLower := pyLower (pyStrip h.city)
      let hRegionLower := pyLower (pyStrip h.region)
      let text := cityTier (ipCityLower loc) hCityLower + regionTier (ipRegionLower loc) hRegionLower
      let dOpt :=
        if truthy loc.latitude ∧ truthy loc.longitude ∧ truthy h.latitude ∧ truthy h.longitude then
          calculate_distance loc.latitude loc.longitude h.latitude h.longitude
        else none
      (text + (match dOpt with | some d => distTier d | none => 0), dOpt)
    else (textFallbackScore loc p, none)
  | none => (textFallbackScore loc p, none)

/-- Final (post-VPN) score of one project (lines 685-689). -/
noncomputable def finalScore (loc : Loc) (p : Project) (hl : Option Loc) : Nat :=
  vpnAdjust (is_vpn loc) (rawScore loc p hl).1

/-- Project validity filter (lines 508-515): a non-empty name or hospital name
after stripping. -/
def validProject (p : Project) : Bool :=
  (pyStrip p.name != "") || (pyStrip p.hospital_name != "")

/-- One retained match entry (the dict appended at lines 695-699). -/
structure MEntry where
  project : Project
  score : Nat
  distance_km : Option ℝ

/-- Sort key component for the distance: unknown distances become `+∞`
(line 707, `float('inf')`). -/
def distKey (e : MEntry) : WithTop ℝ :=
  match e.distance_km with
  | some d => (d : WithTop ℝ)
  | none => ⊤

open Classical in
/-- The comparison used by the sort at lines 704-708: ascending in the key
`(-score, distance-or-∞)`, i.e. score descending, then distance ascending. -/
noncomputable def entryLE (a b : MEntry) : Bool :=
  decide (b.score < a.score ∨ (a.score = b.score ∧ distKey a ≤ distKey b))

/-- The matching engine with its per-candidate geocode results supplied as
data (the concurrent geocode of lines 539-560 is network I/O; its collected
`hospital_locations` map is the `Option Loc` paired with each project).
Produces the retained, sorted entries of lines 563-708. -/
noncomputable def matchScored (loc : Loc) (ps : List (Project × Option Loc)) : List MEntry :=
  if loc.success then
    ((ps.filter (fun x => validProject x.1)).filterMap (fun x =>
      let s := finalScore loc x.1 x.2
      if 10 ≤ s then some ⟨x.1, s, (rawScore loc x.1 x.2).2⟩ else none)).mergeSort entryLE
  else []

/-- `match_projects_by_location` (line 715): the ranked projects only. -/
noncomputable def match_projects_by_location (loc : Loc) (ps : List (Project × Option Loc)) :
    List Project :=
  (matchScored loc ps).map MEntry.project

example : cityTier "北京市" "北京" = 45 := by decide
example : cityTier "hai" "shanghai" = 40 := by decide
example : is_vpn { country := "United States", success := true } = true := by decide
example : vpnAdjust true 40 = 28 := by decide

/-! ## TTL caches (`_location_cache` / `_hospital_cache`)

A Python dict is an association list in insertion order: assigning to an
existing key updates its value in place, assigning a new key appends, and
`min(d.items(), key=...)` returns the first item attaining the minimum. -/

/-- A cache dictionary: key ↦ (value, insertion timestamp). -/
abbrev CacheDict (K V : Type) := List (K × (V × Nat))

section Dict

variable {K A V : Type} [DecidableEq K]

/-- Python `d[k]` / `k in d`. -/
def dictFind (k : K) (d : List (K × A)) : Option A :=
  (d.find? (fun e => decide (e.1 = k))).map Prod.snd

/-- Python `d[k] = v`: update in place when the key is present, else append. -/
def dictInsert (k : K) (v : A) (d : List (K × A)) : List (K × A) :=
  if d.any (fun e => decide (e.1 = k)) then d.map (fun e => if e.1 = k then (k, v) else e)
  else d ++ [(k, v)]

/-- Python `del d[k]`. -/
def dictErase (k : K) (d : List (K × A)) : List (K × A) :=
  d.filter (fun e => decide (e.1 ≠ k))

/-- The fold behind `min(d.items(), key=lambda x: x[1][1])`: keep the current
best, replacing it only on a strictly smaller timestamp, so the first item
attaining the minimum wins (Python `min` semantics). -/
def minEntry (e : K × (V × Nat)) (es : List (K × (V × Nat))) : K × (V × Nat) :=
  es.foldl (fun best x => if x.2.2 < best.2.2 then x else best) e

/-- `min(d.items(), key=lambda x: x[1][1])[0]` (lines 151, 386). -/
def oldestKey : List (K × (V × Nat)) → Option K
  | [] => none
  | e :: es => some ((minEntry e es).1)

/-- Cache lookup (lines 99-106, 318-325): a hit within the TTL returns the
stored value; a stale entry is deleted and treated as a miss. -/
def cacheGet (ttl now : Nat) (k : K) (d : CacheDict K V) : Option V × CacheDict K V :=
  match dictFind k d with
  | some vts => if now - vts.2 < ttl then (some vts.1, d) else (none, dictErase k d)
  | none => (none, d)

/-- Cache store (lines 148-152, 383-387): insert, then if the size exceeds
`maxE`, delete the entry with the smallest insertion timestamp. -/
def cachePut (maxE : Nat) (k : K) (v : V) (now : Nat) (d : CacheDict K V) : CacheDict K V :=
  let d1 := dictInsert k (v, now) d
  if maxE < d1.length then
    match oldestKey d1 with
    | some ok => dictErase ok d1
    | none => d1
  else d1

end Dict

/-- The IP→location cache `_location_cache` (capacity 100). -/
abbrev LocCache := CacheDict String Loc

/-- The venue→location cache `_hospital_cache` (capacity 200). -/
abbrev HospCache := CacheDict String Loc

/-! ## IP geolocation provider chain (`get_location_by_ip`, lines 69-287)

Each provider's (already JSON-parsed) HTTP answer is an explicit input;
`none` stands for any transport error, non-200 status or parse failure, which
the code swallows before advancing to the next provider. -/

/-- The fields of a successful 高德 (amap) IP-lookup response that the code
reads, after the list-flattening of lines 119-131. -/
structure AmapIpResp where
  status : String := ""
  info : String := ""
  province : String := ""
  city : String := ""
  adcode : String := ""
  rectangle : String := ""

/-- Provider 1 (lines 110-159): requires a configured key, `status == '1'`,
`info == 'OK'`, and a non-empty province or city (lines 118, 134). -/
def amapResult (apiKey ip : String) : Option AmapIpResp → Option Loc
  | some r =>
    if apiKey ≠ "" ∧ r.status = "1" ∧ r.info = "OK" ∧ (r.province ≠ "" ∨ r.city ≠ "") then
      some { city := r.city, region := r.province, country := "中国", country_code := "CN",
             ip := ip, adcode := r.adcode, rectangle := r.rectangle, success := true }
    else none
  | none => none

/-- The fields of an ipinfo.io response the code reads; `loc` is the parsed
latitude/longitude pair of lines 173-175 when both halves are present. -/
structure IpinfoResp where
  city : String := ""
  region : String := ""
  country : String := ""
  ip : Option String := none
  loc : Option (ℝ × ℝ) := none
  timezone : String := ""
  org : String := ""

/-- Provider 2 (lines 162-201): accepted when city or region is non-empty
(line 171). -/
def ipinfoResult (ip : String) : Option IpinfoResp → Option Loc
  | some r =>
    if r.city ≠ "" ∨ r.region ≠ "" then
      some { city := r.city, region := r.region, country := r.country,
             country_code := r.country, ip := r.ip.getD ip,
             latitude := r.loc.map Prod.fst, longitude := r.loc.map Prod.snd,
             timezone := r.timezone, isp := r.org, success := true }
    else none
  | none => none

/-- The fields of an ipapi.co response the code reads. -/
structure IpapiResp where
  error : Bool := false
  city : String := ""
  region : String := ""
  country_name : String := ""
  country_code : String := ""
  ip : Option String := none
  latitude : Option ℝ := none
  longitude : Option ℝ := none
  timezone : String := ""
  org : String := ""

/-- Provider 3 (lines 204-236): accepted whenever the body carries no
`error` field (line 213) — the location fields are NOT checked for emptiness. -/
def ipapiResult (ip : String) : Option IpapiResp → Option Loc
  | some r =>
    if r.error = false then
      some { city := r.city, region := r.region, country := r.country_name,
             country_code := r.country_code, ip := r.ip.getD ip,
             latitude := r.latitude, longitude := r.longitude,
             timezone := r.timezone, isp := r.org, success := true }
    else none
  | none => none

/-- The fields of an api.ip.sb response the code reads. -/
structure IpsbResp where
  city : String := ""
  region : String := ""
  country : String := ""
  country_code : String := ""
  ip : Option String := none
  latitude : Option ℝ := none
  longitude : Option ℝ := none
  timezone : String := ""
  isp : String := ""

/-- Last-resort provider inside `_get_location_fallback` (lines 248-277):
accepted when city or region is non-empty (line 261). -/
def ipsbResult (ip : String) : Option IpsbResp → Option Loc
  | some r =>
    if r.city ≠ "" ∨ r.region ≠ "" then
      some { city := r.city, region := r.region, country := r.country,
             country_code := r.country_code, ip := r.ip.getD ip,
             latitude := r.latitude, longitude := r.longitude,
             timezone := r.timezone, isp := r.isp, success := true }
    else none
  | none => none

/-- `_get_location_fallback` (lines 241-287): try api.ip.sb, else the
all-empty `success=False` record of lines 280-287.  Neither outcome touches
the cache. -/
def _get_location_fallback (ip : String) (ipsb : Option IpsbResp) : Loc :=
  match ipsbResult ip ipsb with
  | some r => r
  | none => { ip := ip, success := false }

/-- `get_location_by_ip` (lines 69-239) for a supplied address: check the
cache, then try 高德 / ipinfo.io / ipapi.co in order — each acceptance is
written to `_location_cache` (capacity 100) and returned — and fall back to
`_get_location_fallback` (whose result is returned WITHOUT caching). -/
def get_location_by_ip (apiKey : String) (amap : Option AmapIpResp) (ipinfo : Option IpinfoResp)
    (ipapi : Option IpapiResp) (ipsb : Option IpsbResp) (now : Nat) (cache : LocCache)
    (ip : String) : Loc × LocCache :=
  let g := cacheGet 3600 now ip cache
  match g.1 with
  | some r => (r, g.2)
  | none =>
    match amapResult apiKey ip amap with
    | some lr => (lr, cachePut 100 ip lr now g.2)
    | none =>
      match ipinfoResult ip ipinfo with
      | some lr => (lr, cachePut 100 ip lr now g.2)
      | none =>
        match ipapiResult ip ipapi with
        | some lr => (lr, cachePut 100 ip lr now g.2)
        | none => (_get_location_fallback ip ipsb, g.2)

/-! ## Venue geocoder (`get_hospital_location`, lines 289-398) -/

/-- The fields of a 高德 forward-geocode response the code reads; `location`
is the parsed `(longitude, latitude)` pair of line 369 when the `location`
string is non-empty. -/
structure AmapGeoResp where
  status : String := ""
  count : String := ""
  city : String := ""
  province : String := ""
  district : String := ""
  formatted_address : String := ""
  location : Option (ℝ × ℝ) := none

/-- `get_hospital_location` (lines 289-398): `none` immediately when no API
key is configured (lines 303-306) or both names are empty; otherwise check
`_hospital_cache` under the key `f"{keyword}_{city}"`, and on a miss consult
the single geocoding provider, caching (capacity 200) only a successful
geocode that carries coordinates. -/
def get_hospital_location (apiKey hospital_name project_name city : String) (now : Nat)
    (cache : HospCache) (resp : Option AmapGeoResp) : Option Loc × HospCache :=
  if apiKey = "" then (none, cache)
  else
    let query_keyword := if hospital_name ≠ "" then hospital_name else project_name
    if query_keyword = "" then (none, cache)
    else
      let cache_key := query_keyword ++ "_" ++ city
      let g := cacheGet 3600 now cache_key cache
      match g.1 with
      | some r => (some r, g.2)
      | none =>
        match resp with
        | some r =>
          if r.status = "1" ∧ r.count ≠ "0" then
            match r.location with
            | some lonlat =>
              let res : Loc :=
                { city := r.city, region := r.province, district := r.district,
                  formatted_address := r.formatted_address,
                  latitude := some lonlat.2, longitude := some lonlat.1, success := true }
              (some res, cachePut 200 cache_key res now g.2)
            | none => (none, g.2)
          else (none, g.2)
        | none => (none, g.2)

/-! ## Helper lemmas -/

theorem truthy_none : ¬ truthy none := by simp [truthy]

theorem truthy_some {x : ℝ} (h : x ≠ 0) : truthy (some x) := by simp [truthy, h]

theorem not_truthy_iff (o : Option ℝ) : ¬ truthy o ↔ o = none ∨ o = some 0 := by
  cases o with
  | none => simp [truthy]
  | some x => simp [truthy]

theorem haversine_symm (a b c d : ℝ) : haversine a b c d = haversine c d a b := by
  simp only [haversine, radians]
  have h1 : (a - c) * Real.pi / 180 / 2 = -((c - a) * Real.pi / 180 / 2) := by ring
  have h2 : (b - d) * Real.pi / 180 / 2 = -((d - b) * Real.pi / 180 / 2) := by ring
  congr 2
  congr 1
  congr 1
  rw [h1, h2, Real.sin_neg, Real.sin_neg]
  ring

theorem haversine_self (la lo : ℝ) : haversine la lo la lo = 0 := by
  simp [haversine, radians, sub_self]

theorem rawScore_none (loc : Loc) (p : Project) :
    rawScore loc p none = (textFallbackScore loc p, none) := rfl

theorem rawScore_geo_nodist (loc : Loc) (p : Project) (h : Loc) (hs : h.success = true)
    (hc : ¬ (truthy loc.latitude ∧ truthy loc.longitude ∧ truthy h.latitude ∧ truthy h.longitude)) :
    rawScore loc p (some h) =
      (cityTier (ipCityLower loc) (pyLower (pyStrip h.city)) +
        regionTier (ipRegionLower loc) (pyLower (pyStrip h.region)), none) := by
  simp [rawScore, hs, hc]

theorem rawScore_geo_dist (loc : Loc) (p : Project) (h : Loc) (hs : h.success = true)
    (h1 : truthy loc.latitude) (h2 : truthy loc.longitude)
    (h3 : truthy h.latitude) (h4 : truthy h.longitude) :
    rawScore loc p (some h) =
      (cityTier (ipCityLower loc) (pyLower (pyStrip h.city)) +
        regionTier (ipRegionLower loc) (pyLower (pyStrip h.region)) +
        distTier (haversine (loc.latitude.getD 0) (loc.longitude.getD 0)
          (h.latitude.getD 0) (h.longitude.getD 0)),
        some (haversine (loc.latitude.getD 0) (loc.longitude.getD 0)
          (h.latitude.getD 0) (h.longitude.getD 0))) := by
  have hc : truthy loc.latitude ∧ truthy loc.longitude ∧ truthy h.latitude ∧ truthy h.longitude :=
    ⟨h1, h2, h3, h4⟩
  simp [rawScore, hs, hc, calculate_distance]

/-! ## Claim C5: distance tier -/

/-- C5: with a successful geocode and all four coordinates truthy, the score
is the city tier plus the region tier plus the distance tier of the haversine
distance (Earth radius 6371 km, inside `haversine`); the tier is +30 for
≤10 km, +20 for ≤50 km, +10 for ≤100 km, +5 for ≤200 km, else +0; and a
smaller haversine distance never yields a smaller tier. -/
theorem distance_tier_additive_and_monotone :
    (∀ d : ℝ, (d ≤ 10 → distTier d = 30) ∧ (10 < d → d ≤ 50 → distTier d = 20) ∧
      (50 < d → d ≤ 100 → distTier d = 10) ∧ (100 < d → d ≤ 200 → distTier d = 5) ∧
      (200 < d → distTier d = 0)) ∧
    (∀ d₁ d₂ : ℝ, d₁ ≤ d₂ → distTier d₂ ≤ distTier d₁) ∧
    (∀ (loc : Loc) (p : Project) (h : Loc), h.success = true →
      truthy loc.latitude → truthy loc.longitude → truthy h.latitude → truthy h.longitude →
      rawScore loc p (some h) =
        (cityTier (ipCityLower loc) (pyLower (pyStrip h.city)) +
          regionTier (ipRegionLower loc) (pyLower (pyStrip h.region)) +
          distTier (haversine (loc.latitude.getD 0) (loc.longitude.getD 0)
            (h.latitude.getD 0) (h.longitude.getD 0)),
          some (haversine (loc.latitude.getD 0) (loc.longitude.getD 0)
            (h.latitude.getD 0) (h.longitude.getD 0)))) := by
  refine ⟨fun d => ⟨?_, ?_, ?_, ?_, ?_⟩, fun d₁ d₂ hle => ?_, rawScore_geo_dist⟩ <;>
    intros <;> simp only [distTier] <;> split_ifs <;> first | omega | (exfalso; linarith)

/-- Witness for C5 at concrete inputs. -/
theorem distance_tier_additive_and_monotone_witness :
    distTier 0 = 30 ∧ distTier 60 ≤ distTier 20 ∧
    rawScore { city := "北京市", latitude := some 39, longitude := some 116, success := true }
        { id := 1, name := "测试" }
        (some { city := "北京", latitude := some 40, longitude := some 117, success := true }) =
      (cityTier (ipCityLower { city := "北京市", latitude := some 39, longitude := some 116, success := true }) (pyLower (pyStrip "北京")) +
        regionTier (ipRegionLower { city := "北京市", latitude := some 39, longitude := some 116, success := true }) (pyLower (pyStrip "")) +
        distTier (haversine 39 116 40 117), some (haversine 39 116 40 117)) :=
  ⟨(distance_tier_additive_and_monotone.1 0).1 (by norm_num),
   distance_tier_additive_and_monotone.2.1 20 60 (by norm_num),
   distance_tier_additive_and_monotone.2.2
     { city := "北京市", latitude := some 39, longitude := some 116, success := true }
     { id := 1, name := "测试" }
     { city := "北京", latitude := some 40, longitude := some 117, success := true }
     rfl (truthy_some (by simp)) (truthy_some (by simp))
     (truthy_some (by simp)) (truthy_some (by simp))⟩

/-! ## Claim C8: missing geocoding key short-circuits -/

/-- C8: with no API key configured, the venue geocoder returns the failure
marker (`None` in the source) at once, leaving the cache untouched and
independent of any provider response (no network call can influence the
result), and the scorer then uses the raw region-hint text tiers. -/
theorem no_geocode_key_short_circuit :
    (∀ hn pn city now cache resp,
      get_hospital_location "" hn pn city now cache resp = (none, cache)) ∧
    (∀ hn pn city now cache resp resp',
      get_hospital_location "" hn pn city now cache resp =
        get_hospital_location "" hn pn city now cache resp') ∧
    (∀ (loc : Loc) (p : Project),
      rawScore loc p none =
        (textTier (ipCityLower loc) (ipRegionLower loc) (pyStrip p.region) (pyStrip p.name)
          (pyStrip p.hospital_name), none)) :=
  ⟨fun _ _ _ _ _ _ => rfl, fun _ _ _ _ _ _ _ => rfl, fun _ _ => rfl⟩

/-! ## Claim C9: symmetry and reflexivity of the distance function -/

/-- C9 counterexample: at the point (0, 116) — latitude zero — the claim
`calculate_distance(a,a) == 0` fails: the zero-coordinate guard of line 412
returns `None`, not `0`. -/
theorem calculate_distance_self_zero_lat_fails :
    calculate_distance (some 0) (some 116) (some 0) (some 116) = none ∧
    calculate_distance (some 0) (some 116) (some 0) (some 116) ≠ some 0 := by
  constructor <;> simp [calculate_distance, truthy]

/-- C9 amended: `calculate_distance` is symmetric for all inputs (the truthy
guard is itself symmetric), and it returns `0` on a repeated point whenever
both coordinates are non-zero (otherwise the guard returns `None`). -/
theorem calculate_distance_symm_and_self :
    (∀ lat1 lon1 lat2 lon2 : Option ℝ,
      calculate_distance lat1 lon1 lat2 lon2 = calculate_distance lat2 lon2 lat1 lon1) ∧
    (∀ la lo : ℝ, la ≠ 0 → lo ≠ 0 →
      calculate_distance (some la) (some lo) (some la) (some lo) = some 0) := by
  constructor
  · intro lat1 lon1 lat2 lon2
    by_cases hc : truthy lat1 ∧ truthy lon1 ∧ truthy lat2 ∧ truthy lon2
    · have hc' : truthy lat2 ∧ truthy lon2 ∧ truthy lat1 ∧ truthy lon1 :=
        ⟨hc.2.2.1, hc.2.2.2, hc.1, hc.2.1⟩
      simp only [calculate_distance, if_pos hc, if_pos hc']
      rw [haversine_symm]
    · have hc' : ¬ (truthy lat2 ∧ truthy lon2 ∧ truthy lat1 ∧ truthy lon1) := by tauto
      simp only [calculate_distance, if_neg hc, if_neg hc']
  · intro la lo hla hlo
    have hc : truthy (some la) ∧ truthy (some lo) ∧ truthy (some la) ∧ truthy (some lo) :=
      ⟨truthy_some hla, truthy_some hlo, truthy_some hla, truthy_some hlo⟩
    simp only [calculate_distance, if_pos hc, Option.getD_some, haversine_self]

/-- Witness for C9 amended at concrete inputs. -/
theorem calculate_distance_symm_and_self_witness :
    calculate_distance (some 39) (some 116) (some 40) (some 117) =
      calculate_distance (some 40) (some 117) (some 39) (some 116) ∧
    calculate_distance (some 39) (some 116) (some 39) (some 116) = some 0 :=
  ⟨calculate_distance_symm_and_self.1 (some 39) (some 116) (some 40) (some 117),
   calculate_distance_symm_and_self.2 39 116 (by simp) (by simp)⟩

/-! ## Claim C10: zero coordinates are treated as absent -/

/-- C10: the truthy guard of `calculate_distance` treats `None` and `0`
alike — any such argument yields `None` — and in the scorer the distance tier
is skipped (and `distance_km` stays unknown) unless all four coordinates are
non-`None` and non-zero. -/
theorem zero_coordinate_treated_as_absent :
    (∀ o : Option ℝ, ¬ truthy o ↔ o = none ∨ o = some 0) ∧
    (∀ a b c d : Option ℝ,
      (a = none ∨ a = some 0) ∨ (b = none ∨ b = some 0) ∨
        (c = none ∨ c = some 0) ∨ (d = none ∨ d = some 0) →
      calculate_distance a b c d = none) ∧
    (∀ (loc : Loc) (p : Project) (h : Loc), h.success = true →
      ¬ (truthy loc.latitude ∧ truthy loc.longitude ∧ truthy h.latitude ∧ truthy h.longitude) →
      rawScore loc p (some h) =
        (cityTier (ipCityLower loc) (pyLower (pyStrip h.city)) +
          regionTier (ipRegionLower loc) (pyLower (pyStrip h.region)), none)) := by
  refine ⟨not_truthy_iff, fun a b c d habs => ?_, rawScore_geo_nodist⟩
  have hc : ¬ (truthy a ∧ truthy b ∧ truthy c ∧ truthy d) := by
    rcases habs with h | h | h | h <;>
      exact fun hall => by
        first
        | exact (not_truthy_iff a).2 h hall.1
        | exact (not_truthy_iff b).2 h hall.2.1
        | exact (not_truthy_iff c).2 h hall.2.2.1
        | exact (not_truthy_iff d).2 h hall.2.2.2
  simp only [calculate_distance, if_neg hc]

/-- Witness for C10 at concrete inputs: a client at latitude 0 gets no
distance and no distance points. -/
theorem zero_coordinate_treated_as_absent_witness :
    (¬ truthy (some 0) ↔ (some (0 : ℝ) = none ∨ some (0 : ℝ) = some 0)) ∧
    calculate_distance (some 0) (some 116) (some 39) (some 116) = none ∧
    rawScore { city := "北京", latitude := some 0, longitude := some 116, success := true }
        { id := 1, name := "测试" }
        (some { city := "北京", latitude := some 39, longitude := some 116, success := true }) =
      (cityTier (ipCityLower { city := "北京", latitude := some 0, longitude := some 116, success := true }) (pyLower (pyStrip "北京")) +
        regionTier (ipRegionLower { city := "北京", latitude := some 0, longitude := some 116, success := true }) (pyLower (pyStrip "")), none) :=
  ⟨zero_coordinate_treated_as_absent.1 (some 0),
   zero_coordinate_treated_as_absent.2.1 (some 0) (some 116) (some 39) (some 116)
     (Or.inl (Or.inr rfl)),
   zero_coordinate_treated_as_absent.2.2
     { city := "北京", latitude := some 0, longitude := some 116, success := true }
     { id := 1, name := "测试" }
     { city := "北京", latitude := some 39, longitude := some 116, success := true }
     rfl (fun hall => by simpa [truthy] using hall.1)⟩

/-! ## Claim C1: city tier order and Scenario 1 -/

/-- C1: for non-empty (lowercased) city strings the city tier is one of
+50/+45/+40/+35/+0, decided by the first matching clause of the cascade —
exact raw, exact normalized, raw substring, normalized substring, else 0 —
and the Scenario-1 run (client city 北京市, venue geocode city 北京, regions
unset, no coordinates, no VPN) retains exactly one entry of score 45. -/
theorem city_tier_first_match_and_scenario1 :
    (∀ c h : String, c ≠ "" → h ≠ "" →
      (cityTier c h = 50 ∨ cityTier c h = 45 ∨ cityTier c h = 40 ∨ cityTier c h = 35 ∨
        cityTier c h = 0) ∧
      (c = h → cityTier c h = 50) ∧
      (c ≠ h → (normCity c ≠ "" ∧ normCity h ≠ "" ∧ normCity c = normCity h) →
        cityTier c h = 45) ∧
      (c ≠ h → ¬ (normCity c ≠ "" ∧ normCity h ≠ "" ∧ normCity c = normCity h) →
        (pyIn c h = true ∨ pyIn h c = true) → cityTier c h = 40) ∧
      (c ≠ h → ¬ (normCity c ≠ "" ∧ normCity h ≠ "" ∧ normCity c = normCity h) →
        ¬ (pyIn c h = true ∨ pyIn h c = true) →
        (normCity c ≠ "" ∧ normCity h ≠ "" ∧
          (pyIn (normCity c) (normCity h) = true ∨ pyIn (normCity h) (normCity c) = true)) →
        cityTier c h = 35) ∧
      (c ≠ h → ¬ (normCity c ≠ "" ∧ normCity h ≠ "" ∧ normCity c = normCity h) →
        ¬ (pyIn c h = true ∨ pyIn h c = true) →
        ¬ (normCity c ≠ "" ∧ normCity h ≠ "" ∧
          (pyIn (normCity c) (normCity h) = true ∨ pyIn (normCity h) (normCity c) = true)) →
        cityTier c h = 0)) ∧
    matchScored { city := "北京市", success := true }
        [({ id := 1, name := "测试项目" }, some { city := "北京", success := true })] =
      [⟨{ id := 1, name := "测试项目" }, 45, none⟩] := by
  constructor
  · intro c h hc hh
    refine ⟨?_, ?_, ?_, ?_, ?_, ?_⟩
    · simp only [cityTier]; split_ifs <;> simp
    · intro heq
      simp only [cityTier]
      rw [if_pos (⟨hc, hh⟩ : c ≠ "" ∧ h ≠ ""), if_pos heq]
    · intro hne h45
      simp only [cityTier]
      rw [if_pos (⟨hc, hh⟩ : c ≠ "" ∧ h ≠ ""), if_neg hne, if_pos h45]
    · intro hne h45 h40
      simp only [cityTier]
      rw [if_pos (⟨hc, hh⟩ : c ≠ "" ∧ h ≠ ""), if_neg hne, if_neg h45, if_pos h40]
    · intro hne h45 h40 h35
      simp only [cityTier]
      rw [if_pos (⟨hc, hh⟩ : c ≠ "" ∧ h ≠ ""), if_neg hne, if_neg h45, if_neg h40, if_pos h35]
    · intro hne h45 h40 h35
      simp only [cityTier]
      rw [if_pos (⟨hc, hh⟩ : c ≠ "" ∧ h ≠ ""), if_neg hne, if_neg h45, if_neg h40, if_neg h35]
  · have hraw : rawScore { city := "北京市", success := true } { id := 1, name := "测试项目" }
        (some { city := "北京", success := true }) = (45, none) := by
      rw [rawScore_geo_nodist _ _ _ rfl (fun hall => truthy_none hall.1)]
      simp only [Prod.mk.injEq]
      exact ⟨by decide, trivial⟩
    have hfinal : finalScore { city := "北京市", success := true } { id := 1, name := "测试项目" }
        (some { city := "北京", success := true }) = 45 := by
      simp only [finalScore, hraw]
      decide
    simp only [matchScored, if_true]
    simp only [List.filter_cons, List.filter_nil]
    rw [if_pos (by decide : validProject { id := 1, name := "测试项目" } = true)]
    simp only [List.filterMap_cons, List.filterMap_nil, hfinal, hraw]
    rw [if_pos (by decide : (10 : Nat) ≤ 45)]
    simp

/-- Witness for C1 at the concrete Scenario-1 strings. -/
theorem city_tier_first_match_and_scenario1_witness :
    cityTier "北京市" "北京" = 45 ∧
    matchScored { city := "北京市", success := true }
        [({ id := 1, name := "测试项目" }, some { city := "北京", success := true })] =
      [⟨{ id := 1, name := "测试项目" }, 45, none⟩] :=
  ⟨(city_tier_first_match_and_scenario1.1 "北京市" "北京" (by decide) (by decide)).2.2.1
      (by decide) (by decide),
   city_tier_first_match_and_scenario1.2⟩

/-! ## Claim C2: VPN penalty -/

theorem is_vpn_iff (loc : Loc) :
    is_vpn loc = true ↔
      ipCountryLower loc ≠ "" ∧ pyIn "china" (ipCountryLower loc) = false ∧
        pyIn "中国" (ipCountryLower loc) = false := by
  simp [is_vpn, Bool.and_eq_true, bne_iff_ne, Bool.not_eq_true, and_assoc]

/-- C2: the final score is the raw score scaled by 0.7 and truncated (exact
arithmetic) exactly when the lowercased, stripped country is non-empty and
contains neither china nor 中国; exact truncation yields 28 at raw 40 — and
63 at raw 90, where the Python float computation `int(90 * 0.7)` instead
yields 62 (see RESULTS, claim C2). -/
theorem vpn_penalty_iff_foreign_country :
    (∀ (loc : Loc) (p : Project) (g : Option Loc),
      finalScore loc p g =
        if ipCountryLower loc ≠ "" ∧ pyIn "china" (ipCountryLower loc) = false ∧
            pyIn "中国" (ipCountryLower loc) = false
        then 7 * (rawScore loc p g).1 / 10 else (rawScore loc p g).1) ∧
    vpnAdjust true 40 = 28 ∧ vpnAdjust true 90 = 63 ∧
    finalScore { city := "Hai", country := "United States", success := true }
      { id := 1, name := "x" } (some { city := "Shanghai", success := true }) = 28 := by
  refine ⟨fun loc p g => ?_, by decide, by decide, ?_⟩
  · simp only [finalScore, vpnAdjust]
    by_cases hv : is_vpn loc = true
    · rw [if_pos hv, if_pos ((is_vpn_iff loc).1 hv)]
    · rw [if_neg hv, if_neg (fun hc => hv ((is_vpn_iff loc).2 hc))]
  · have hraw : rawScore { city := "Hai", country := "United States", success := true }
        { id := 1, name := "x" } (some { city := "Shanghai", success := true }) = (40, none) := by
      rw [rawScore_geo_nodist _ _ _ rfl (fun hall => truthy_none hall.1)]
      simp only [Prod.mk.injEq]
      exact ⟨by decide, trivial⟩
    simp only [finalScore, hraw]
    decide

/-! ## Claim C3: retention threshold -/

/-- C3: a project appears in the output of the matching engine iff the run
succeeded and, for the geocode result it was paired with, it is a valid
candidate whose final (post-VPN) score reaches 10. -/
theorem retained_iff_final_score_ge_10 :
    ∀ (loc : Loc) (ps : List (Project × Option Loc)) (q : Project),
      q ∈ match_projects_by_location loc ps ↔
        (loc.success = true ∧ ∃ g, (q, g) ∈ ps ∧ validProject q = true ∧
          10 ≤ finalScore loc q g) := by
  intro loc ps q
  unfold match_projects_by_location matchScored
  by_cases hs : loc.success = true
  · rw [if_pos hs]
    simp only [List.mem_map, List.mem_mergeSort, List.mem_filterMap, List.mem_filter, hs, true_and]
    constructor
    · rintro ⟨e, ⟨x, ⟨hxmem, hxval⟩, hfx⟩, hproj⟩
      by_cases h10 : 10 ≤ finalScore loc x.1 x.2
      · rw [if_pos h10] at hfx
        obtain rfl : (⟨x.1, finalScore loc x.1 x.2, (rawScore loc x.1 x.2).2⟩ : MEntry) = e :=
          Option.some.inj hfx
        refine ⟨x.2, ?_, ?_, ?_⟩
        · have hx : x = (q, x.2) := by
            cases x
            simp only [MEntry.project] at hproj
            simpa using hproj
          rw [← hx]; exact hxmem
        · have hx : x.1 = q := hproj
          rw [← hx]; exact hxval
        · have hx : x.1 = q := hproj
          rw [← hx]; exact h10
      · rw [if_neg h10] at hfx
        exact absurd hfx (by simp)
    · rintro ⟨g, hmem, hval, h10⟩
      exact ⟨⟨q, finalScore loc q g, (rawScore loc q g).2⟩,
        ⟨(q, g), ⟨hmem, hval⟩, by rw [if_pos h10]⟩, rfl⟩
  · rw [if_neg hs]
    simp [hs]

/-! ## Claim C4: output ordering -/

/-- C4: the retained entries are pairwise ordered by score descending, ties
broken by the distance key ascending, where an unknown distance is `⊤`. -/
theorem output_sorted_by_score_then_distance :
    ∀ (loc : Loc) (ps : List (Project × Option Loc)),
      (matchScored loc ps).Pairwise
        (fun a b => b.score < a.score ∨ (a.score = b.score ∧ distKey a ≤ distKey b)) := by
  intro loc ps
  unfold matchScored
  by_cases hs : loc.success = true
  · rw [if_pos hs]
    have htrans : ∀ a b c : MEntry, entryLE a b = true → entryLE b c = true →
        entryLE a c = true := by
      simp only [entryLE, decide_eq_true_eq]
      rintro a b c (hab | ⟨hab1, hab2⟩) (hbc | ⟨hbc1, hbc2⟩)
      · exact Or.inl (hbc.trans hab)
      · exact Or.inl (by omega)
      · exact Or.inl (by omega)
      · exact Or.inr ⟨hab1.trans hbc1, le_trans hab2 hbc2⟩
    have htotal : ∀ a b : MEntry, (entryLE a b || entryLE b a) = true := by
      intro a b
      rw [Bool.or_eq_true]
      simp only [entryLE, decide_eq_true_eq]
      rcases Nat.lt_trichotomy a.score b.score with h | h | h
      · exact Or.inr (Or.inl h)
      · rcases le_total (distKey a) (distKey b) with hd | hd
        · exact Or.inl (Or.inr ⟨h, hd⟩)
        · exact Or.inr (Or.inr ⟨h.symm, hd⟩)
      · exact Or.inl (Or.inl h)
    exact (List.sorted_mergeSort htrans htotal _).imp
      (fun hab => by simpa [entryLE, decide_eq_true_eq] using hab)
  · rw [if_neg hs]
    exact List.Pairwise.nil

/-! ## Cache lemmas -/

theorem minEntry_mem {K V : Type} (e : K × (V × Nat)) (es : List (K × (V × Nat))) :
    minEntry e es ∈ e :: es := by
  induction es generalizing e with
  | nil => simp [minEntry]
  | cons x xs ih =>
    simp only [minEntry, List.foldl_cons]
    have h := ih (if x.2.2 < e.2.2 then x else e)
    rcases List.mem_cons.mp h with h1 | h1
    · rw [show (List.foldl (fun best x => if x.2.2 < best.2.2 then x else best)
          (if x.2.2 < e.2.2 then x else e) xs) = minEntry (if x.2.2 < e.2.2 then x else e) xs
          from rfl, h1]
      split_ifs <;> simp
    · exact List.mem_cons_of_mem _ (List.mem_cons_of_mem _ h1)

theorem minEntry_le {K V : Type} (e : K × (V × Nat)) (es : List (K × (V × Nat))) :
    ∀ x ∈ e :: es, (minEntry e es).2.2 ≤ x.2.2 := by
  induction es generalizing e with
  | nil =>
    intro x hx
    rcases List.mem_cons.mp hx with rfl | h
    · exact Nat.le_refl _
    · simp at h
  | cons y ys ih =>
    intro x hx
    simp only [minEntry, List.foldl_cons]
    have hle_e : (if y.2.2 < e.2.2 then y else e).2.2 ≤ e.2.2 := by
      split_ifs with h
      · exact Nat.le_of_lt h
      · exact Nat.le_refl _
    have hle_y : (if y.2.2 < e.2.2 then y else e).2.2 ≤ y.2.2 := by
      split_ifs with h
      · exact Nat.le_refl _
      · exact Nat.le_of_not_lt h
    have hall := ih (if y.2.2 < e.2.2 then y else e)
    have hmin : (minEntry (if y.2.2 < e.2.2 then y else e) ys).2.2 ≤
        (if y.2.2 < e.2.2 then y else e).2.2 := hall _ (List.mem_cons_self _ _)
    rcases List.mem_cons.mp hx with rfl | hx1
    · exact le_trans hmin hle_e
    rcases List.mem_cons.mp hx1 with rfl | hx2
    · exact le_trans hmin hle_y
    · exact hall x (List.mem_cons_of_mem _ hx2)

theorem dictInsert_length {K A : Type} [DecidableEq K] (k : K) (v : A) (d : List (K × A)) :
    (dictInsert k v d).length = d.length ∨ (dictInsert k v d).length = d.length + 1 := by
  unfold dictInsert
  split_ifs with h
  · left; simp
  · right; simp

theorem cachePut_length_le {K V : Type} [DecidableEq K] (maxE : Nat) (k : K) (v : V) (now : Nat)
    (d : CacheDict K V) (hd : d.length ≤ maxE) : (cachePut maxE k v now d).length ≤ maxE := by
  unfold cachePut
  by_cases hlen : maxE < (dictInsert k (v, now) d).length
  · rw [if_pos hlen]
    cases hins : dictInsert k (v, now) d with
    | nil => rw [hins] at hlen; simp at hlen
    | cons e es =>
      rw [hins] at hlen
      simp only [oldestKey]
      have hmem : minEntry e es ∈ e :: es := minEntry_mem e es
      have hshort : (dictErase (minEntry e es).1 (e :: es)).length < (e :: es).length := by
        apply List.length_filter_lt_length_iff_exists.mpr
        exact ⟨minEntry e es, hmem, by simp⟩
      have hlen2 : (e :: es).length ≤ d.length + 1 := by
        rw [← hins]
        rcases dictInsert_length k (v, now) d with h | h <;> omega
      omega
  · rw [if_neg hlen]
    omega

theorem cacheGet_length_le {K V : Type} [DecidableEq K] (ttl now : Nat) (k : K)
    (d : CacheDict K V) : ((cacheGet ttl now k d).2).length ≤ d.length := by
  unfold cacheGet
  rcases h : dictFind k d with _ | vts
  · simp
  · simp only []
    split_ifs with ht
    · exact Nat.le_refl _
    · exact List.length_filter_le _ _

theorem cachePut_evicts_oldest {K V : Type} [DecidableEq K] (maxE : Nat) (k : K) (v : V)
    (now : Nat) (d : CacheDict K V) (hfull : maxE < (dictInsert k (v, now) d).length) :
    ∃ ok oe, oldestKey (dictInsert k (v, now) d) = some ok ∧
      cachePut maxE k v now d = dictErase ok (dictInsert k (v, now) d) ∧
      oe ∈ dictInsert k (v, now) d ∧ oe.1 = ok ∧
      ∀ x ∈ dictInsert k (v, now) d, oe.2.2 ≤ x.2.2 := by
  cases hins : dictInsert k (v, now) d with
  | nil => rw [hins] at hfull; simp at hfull
  | cons e es =>
    refine ⟨(minEntry e es).1, minEntry e es, rfl, ?_, minEntry_mem e es, rfl, minEntry_le e es⟩
    unfold cachePut
    rw [hins] at hfull ⊢
    rw [if_pos hfull]
    simp only [oldestKey]

/-! ## Claim C6: cache capacity and oldest-first eviction -/

/-- C6: the put of the IP cache (capacity 100) and of the venue cache
(capacity 200) preserve their size bounds, a get never grows a cache, and a
put that exceeds the capacity removes exactly the entry whose insertion
timestamp is smallest (the first such entry, as Python `min` does). -/
theorem cache_capacity_and_oldest_eviction :
    (∀ (d : LocCache) (k : String) (v : Loc) (now : Nat),
      d.length ≤ 100 → (cachePut 100 k v now d).length ≤ 100) ∧
    (∀ (d : HospCache) (k : String) (v : Loc) (now : Nat),
      d.length ≤ 200 → (cachePut 200 k v now d).length ≤ 200) ∧
    (∀ (d : LocCache) (ttl now : Nat) (k : String),
      ((cacheGet ttl now k d).2).length ≤ d.length) ∧
    (∀ (maxE : Nat) (d : CacheDict String Loc) (k : String) (v : Loc) (now : Nat),
      maxE < (dictInsert k (v, now) d).length →
      ∃ ok oe, oldestKey (dictInsert k (v, now) d) = some ok ∧
        cachePut maxE k v now d = dictErase ok (dictInsert k (v, now) d) ∧
        oe ∈ dictInsert k (v, now) d ∧ oe.1 = ok ∧
        ∀ x ∈ dictInsert k (v, now) d, oe.2.2 ≤ x.2.2) :=
  ⟨fun d k v now hd => cachePut_length_le 100 k v now d hd,
   fun d k v now hd => cachePut_length_le 200 k v now d hd,
   fun d ttl now k => cacheGet_length_le ttl now k d,
   fun maxE d k v now hfull => cachePut_evicts_oldest maxE k v now d hfull⟩

/-- Witness for C6 at concrete caches. -/
theorem cache_capacity_and_oldest_eviction_witness :
    (cachePut 100 "1.2.3.4" {} 0 ([] : LocCache)).length ≤ 100 ∧
    (cachePut 200 "协和医院_北京" {} 0 ([] : HospCache)).length ≤ 200 ∧
    ((cacheGet 3600 7 "1.2.3.4" ([("1.2.3.4", ({}, 3))] : LocCache)).2).length ≤ 1 ∧
    (∃ ok oe, oldestKey (dictInsert "b" (({} : Loc), 9) [("a", ({}, 5))]) = some ok ∧
      cachePut 1 "b" {} 9 [("a", ({}, 5))] =
        dictErase ok (dictInsert "b" (({} : Loc), 9) [("a", ({}, 5))]) ∧
      oe ∈ dictInsert "b" (({} : Loc), 9) [("a", ({}, 5))] ∧ oe.1 = ok ∧
      ∀ x ∈ dictInsert "b" (({} : Loc), 9) [("a", ({}, 5))], oe.2.2 ≤ x.2.2) :=
  ⟨cache_capacity_and_oldest_eviction.1 [] "1.2.3.4" {} 0 (by decide),
   cache_capacity_and_oldest_eviction.2.1 [] "协和医院_北京" {} 0 (by decide),
   cache_capacity_and_oldest_eviction.2.2.1 [("1.2.3.4", ({}, 3))] 3600 7 "1.2.3.4",
   cache_capacity_and_oldest_eviction.2.2.2 1 [("a", ({}, 5))] "b" {} 9 (by decide)⟩

/-! ## Claim C7: provider chain acceptance and caching -/

/-- C7 counterexample.  First conjunct: with no API key, ipinfo.io failing and
ipapi.co answering without an `error` field but with every location field
empty, the chain accepts a `succeeded=true` record lacking every location
field (refuting the claim that no such response is accepted).  Second
conjunct: when only the last-resort ip.sb provider answers (city 上海), the
returned record succeeds yet the cache stays empty — the accepted record is
never written to the cache. -/
theorem ip_chain_acceptance_claim_fails :
    ((get_location_by_ip "" none none (some { error := false }) none 0 [] "1.2.3.4").1.success
        = true ∧
      (get_location_by_ip "" none none (some { error := false }) none 0 [] "1.2.3.4").1.city
        = "" ∧
      (get_location_by_ip "" none none (some { error := false }) none 0 [] "1.2.3.4").1.region
        = "" ∧
      (get_location_by_ip "" none none (some { error := false }) none 0 [] "1.2.3.4").1.country
        = "" ∧
      (get_location_by_ip "" none none (some { error := false }) none 0 [] "1.2.3.4").1.country_code
        = "") ∧
    ((get_location_by_ip "" none none none (some { city := "上海" }) 0 [] "5.6.7.8").1.success
        = true ∧
      (get_location_by_ip "" none none none (some { city := "上海" }) 0 [] "5.6.7.8").2 = []) :=
  ⟨⟨rfl, rfl, rfl, rfl, rfl⟩, ⟨rfl, rfl⟩⟩

/-- C7 amended: the 高德 and ipinfo.io providers only accept records carrying
a non-empty location field, ipapi.co accepts any non-error response (even all
empty), the first acceptance among these three wins and is written to the
IP-location cache (capacity 100), while a last-resort ip.sb success is
returned without touching the cache; a record just put under a fresh key with
the newest timestamp is indeed present afterwards. -/
theorem ip_chain_first_acceptance_cached :
    (∀ (apiKey ip : String) (r : AmapIpResp) (lr : Loc),
      amapResult apiKey ip (some r) = some lr →
        lr.success = true ∧ (lr.region ≠ "" ∨ lr.city ≠ "")) ∧
    (∀ (ip : String) (r : IpinfoResp) (lr : Loc),
      ipinfoResult ip (some r) = some lr →
        lr.success = true ∧ (lr.city ≠ "" ∨ lr.region ≠ "")) ∧
    (∀ (ip : String) (r : IpapiResp) (lr : Loc),
      ipapiResult ip (some r) = some lr → lr.success = true) ∧
    (∀ (apiKey : String) (amap : Option AmapIpResp) (ipinfo : Option IpinfoResp)
      (ipapi : Option IpapiResp) (ipsb : Option IpsbResp) (now : Nat) (cache : LocCache)
      (ip : String) (lr : Loc),
      (cacheGet 3600 now ip cache).1 = none →
      ((amapResult apiKey ip amap = some lr ∨
        (amapResult apiKey ip amap = none ∧ ipinfoResult ip ipinfo = some lr) ∨
        (amapResult apiKey ip amap = none ∧ ipinfoResult ip ipinfo = none ∧
          ipapiResult ip ipapi = some lr)) →
        get_location_by_ip apiKey amap ipinfo ipapi ipsb now cache ip =
          (lr, cachePut 100 ip lr now (cacheGet 3600 now ip cache).2)) ∧
      (amapResult apiKey ip amap = none → ipinfoResult ip ipinfo = none →
        ipapiResult ip ipapi = none →
        get_location_by_ip apiKey amap ipinfo ipapi ipsb now cache ip =
          (_get_location_fallback ip ipsb, (cacheGet 3600 now ip cache).2))) ∧
    (∀ (d : LocCache) (k : String) (lr : Loc) (now : Nat),
      (∀ e ∈ d, e.2.2 ≤ now) → (∀ e ∈ d, e.1 ≠ k) →
      (k, (lr, now)) ∈ cachePut 100 k lr now d) := by
  refine ⟨?_, ?_, ?_, ?_, ?_⟩
  · intro apiKey ip r lr h
    simp only [amapResult] at h
    split_ifs at h with hc
    obtain rfl := Option.some.inj h
    exact ⟨rfl, hc.2.2.2⟩
  · intro ip r lr h
    simp only [ipinfoResult] at h
    split_ifs at h with hc
    obtain rfl := Option.some.inj h
    exact ⟨rfl, hc⟩
  · intro ip r lr h
    simp only [ipapiResult] at h
    split_ifs at h with hc
    obtain rfl := Option.some.inj h
    exact rfl
  · intro apiKey amap ipinfo ipapi ipsb now cache ip lr hmiss
    constructor
    · rintro (ha | ⟨ha, hi⟩ | ⟨ha, hi, hp⟩)
      · simp only [get_location_by_ip, hmiss, ha]
      · simp only [get_location_by_ip, hmiss, ha, hi]
      · simp only [get_location_by_ip, hmiss, ha, hi, hp]
    · intro ha hi hp
      simp only [get_location_by_ip, hmiss, ha, hi, hp]
  · intro d k lr now hts hkey
    have hins : dictInsert k (lr, now) d = d ++ [(k, (lr, now))] := by
      unfold dictInsert
      rw [if_neg ?_]
      simp only [List.any_eq_true, decide_eq_true_eq, not_exists]
      rintro e ⟨he, hp⟩
      exact hkey e he hp
    unfold cachePut
    rw [hins]
    by_cases hfull : 100 < (d ++ [(k, (lr, now))]).length
    · rw [if_pos hfull]
      cases d with
      | nil => simp at hfull
      | cons e es =>
        have hmem := minEntry_mem e es
        simp only [List.cons_append, oldestKey]
        have hfold : minEntry e (es ++ [(k, (lr, now))]) =
            if now < (minEntry e es).2.2 then (k, (lr, now)) else minEntry e es := by
          unfold minEntry
          rw [List.foldl_append]
          simp only [List.foldl_cons, List.foldl_nil]
        have hnotlt : ¬ now < (minEntry e es).2.2 := by
          have hb := hts (minEntry e es) hmem
          omega
        rw [hfold, if_neg hnotlt]
        unfold dictErase
        rw [List.mem_filter]
        refine ⟨?_, ?_⟩
        · exact List.mem_cons_of_mem _ (List.mem_append_right _ (List.mem_cons_self _ _))
        · simp only [decide_eq_true_eq]
          exact fun hkk => hkey (minEntry e es) hmem hkk.symm
    · rw [if_neg hfull]
      exact List.mem_append_right _ (List.mem_cons_self _ _)

/-- Witness for C7 amended at concrete provider responses. -/
theorem ip_chain_first_acceptance_cached_witness :
    (amapResult "key" "8.8.8.8" (some { status := "1", info := "OK", province := "北京市" }) =
        some { region := "北京市", country := "中国", country_code := "CN", ip := "8.8.8.8", success := true } →
      ({ region := "北京市", country := "中国", country_code := "CN", ip := "8.8.8.8", success := true } : Loc).success = true ∧
        (({ region := "北京市", country := "中国", country_code := "CN", ip := "8.8.8.8", success := true } : Loc).region ≠ "" ∨
          ({ region := "北京市", country := "中国", country_code := "CN", ip := "8.8.8.8", success := true } : Loc).city ≠ "")) ∧
    (get_location_by_ip "" none (some { city := "Tokyo" }) none none 4 [] "9.9.9.9" =
      ({ city := "Tokyo", ip := "9.9.9.9", success := true },
        cachePut 100 "9.9.9.9" { city := "Tokyo", ip := "9.9.9.9", success := true } 4
          (cacheGet 3600 4 "9.9.9.9" ([] : LocCache)).2)) ∧
    (get_location_by_ip "" none none none (some { city := "上海" }) 4 [] "9.9.9.9" =
      (_get_location_fallback "9.9.9.9" (some { city := "上海" }),
        (cacheGet 3600 4 "9.9.9.9" ([] : LocCache)).2)) ∧
    ("b", (({} : Loc), 9)) ∈ cachePut 100 "b" {} 9 ([("a", ({}, 5))] : LocCache) :=
  ⟨ip_chain_first_acceptance_cached.1 "key" "8.8.8.8"
      { status := "1", info := "OK", province := "北京市" }
      { region := "北京市", country := "中国", country_code := "CN", ip := "8.8.8.8", success := true },
   (ip_chain_first_acceptance_cached.2.2.2.1 "" none (some { city := "Tokyo" }) none none 4 []
      "9.9.9.9" { city := "Tokyo", ip := "9.9.9.9", success := true } rfl).1
      (Or.inr (Or.inl ⟨rfl, rfl⟩)),
   (ip_chain_first_acceptance_cached.2.2.2.1 "" none none none (some { city := "上海" }) 4 []
      "9.9.9.9" {} rfl).2 rfl rfl rfl,
   ip_chain_first_acceptance_cached.2.2.2.2 [("a", ({}, 5))] "b" {} 9 (by decide) (by decide)⟩

end RZB
